import Mathlib

/-!
Verification of the docx-to-HTML section splitter (`src/app.py`).

The Python source is shallowly embedded: Python strings become Lean
`String`, Python dictionaries become association lists, optional
attributes become `Option`, and the one operation that can raise
(`related_parts[r_id]`, a dictionary subscript that raises `KeyError`
on a missing key) makes the rendering functions return
`Except String _` where the error value records the raised key.
Python truthiness of a string is "nonempty"; truthiness of `None` is
false; both are modelled explicitly at each use site.
-/

namespace DocxParser

/-- Python `str.isspace` characters relevant to `str.strip()` (the six
ASCII whitespace characters). -/
def pyIsSpace (c : Char) : Bool :=
  c = ' ' || c = '\t' || c = '\n' || c = '\r' || c = '\x0b' || c = '\x0c'

/-- Strip leading and trailing whitespace from a character list,
mirroring Python `str.strip()`. -/
def stripL (l : List Char) : List Char :=
  ((l.dropWhile pyIsSpace).reverse.dropWhile pyIsSpace).reverse

/-- Python `s.strip()`. -/
def pyStrip (s : String) : String := ⟨stripL s.data⟩

/-- Python `s.lower()` (ASCII case folding, characterwise). -/
def lowerAscii (s : String) : String := ⟨s.data.map Char.toLower⟩

/-- Python `s.startswith(p)`. -/
def strStartsWith (s p : String) : Bool := p.data.isPrefixOf s.data

/-- Substring search over character lists: does `sub` occur as a
contiguous block? -/
def containsSubL (sub : List Char) : List Char → Bool
  | [] => sub.isEmpty
  | c :: rest => sub.isPrefixOf (c :: rest) || containsSubL sub rest

/-- Python `sub in s` substring membership. -/
def strContains (s sub : String) : Bool := containsSubL sub.data s.data

/-- Python `s.replace(c, rep)` for a one-character needle: every
occurrence of `c` is replaced by `rep`, left to right. -/
def replCharL (c : Char) (rep : List Char) : List Char → List Char
  | [] => []
  | ch :: rest => (if ch = c then rep else [ch]) ++ replCharL c rep rest

/-- The HTML escaping of line 29 of the source:
`text.replace('&','&amp;').replace('<','&lt;').replace('>','&gt;')`,
applied in exactly that order. -/
def escapeHtml (s : String) : String :=
  ⟨replCharL '>' "&gt;".data (replCharL '<' "&lt;".data (replCharL '&' "&amp;".data s.data))⟩

/-- Single-character escape table: what one character contributes to the
fully escaped text. -/
def escChar (c : Char) : List Char :=
  if c = '&' then "&amp;".data
  else if c = '<' then "&lt;".data
  else if c = '>' then "&gt;".data
  else [c]

/-- One-pass characterwise escaping; `escapeHtml` is proved equal to it. -/
def escMap : List Char → List Char
  | [] => []
  | c :: l => escChar c ++ escMap l

/-- Python `s.split('\n')`: split at every newline, keeping empty parts;
the split of the empty string is `[""]`. -/
def splitNl : List Char → List (List Char)
  | [] => [[]]
  | c :: rest =>
    if c = '\n' then [] :: splitNl rest
    else match splitNl rest with
      | [] => [[c]]
      | h :: t => (c :: h) :: t

/-- Line 34 of the source:
`'<br>'.join(line.strip() for line in text.split('\n') if line.strip())`. -/
def brJoin (t : String) : String :=
  ⟨List.intercalate "<br>".data (((splitNl t.data).map stripL).filter (fun l => !l.isEmpty))⟩

/-- Lines 32-34 of the source: rejoin with `<br>` only when the escaped
text contains a newline; otherwise leave it untouched. -/
def newlineBr (t : String) : String :=
  if t.data.contains '\n' then brJoin t else t

/-- List kind: `'ul'` or `'ol'` in the source. -/
inductive ListType where
  | ul : ListType
  | ol : ListType
deriving Repr, DecidableEq

/-- The tag string of a list kind, as interpolated by `wrap_list`. -/
def tagName : ListType → String
  | ListType.ul => "ul"
  | ListType.ol => "ol"

/-- Numbering metadata of a paragraph (`para._p.pPr.numPr`); `ilvl` is
the indent level when an `ilvl` element is present. -/
structure NumPr where
  ilvl : Option Nat
deriving Repr, DecidableEq

/-- A text run. `hasHyperlink` models a nonempty
`run._element.xpath('.//w:hyperlink')` result and `relId` the `r:id`
attribute of that hyperlink element. `bold`/`italic` model the Python
truthiness of `run.bold`/`run.italic`. `fontSizeFmt` is the already
formatted `f"{run.font.size.pt:.2f}"` string when the size is present
and formatting succeeds (the float formatting itself is outside the
embedding). `fontName` and `colorRgb` are the optional font name and
explicit RGB color. -/
structure Run where
  text : String
  hasHyperlink : Bool
  relId : Option String
  bold : Bool
  italic : Bool
  fontSizeFmt : Option String
  fontName : Option String
  colorRgb : Option String
deriving Repr, DecidableEq

/-- A paragraph: runs, style name, optional numbering metadata. -/
structure Paragraph where
  runs : List Run
  styleName : String
  numPr : Option NumPr
deriving Repr, DecidableEq

/-- Document environment: `run.part.related_parts`, a dictionary from
relationship id to the related part's `target_ref`. -/
structure Env where
  relatedParts : List (String × String)
deriving Repr, DecidableEq

/-- Python-docx `para.text`: concatenation of the runs' texts. -/
def paraText (p : Paragraph) : String := String.join (p.runs.map Run.text)

/-- The inline style string assembled on lines 36-57 of the source. -/
def styleStr (r : Run) : String :=
  (if r.bold then "font-weight:bold;" else "font-weight:normal;")
  ++ (if r.italic then "font-style:italic;" else "")
  ++ (match r.fontSizeFmt with
      | some s => "font-size:" ++ s ++ "pt;"
      | none => "")
  ++ (match r.fontName with
      | some n => if n ≠ "" then "font-family:\x27" ++ n ++ "\x27;" else ""
      | none => "")
  ++ (match r.colorRgb with
      | some c => if c ≠ "" then "color:#" ++ c ++ ";" else ""
      | none => "")

/-- Lines 16-21 of the source: the resolved hyperlink value if the run
participates in hyperlink markup.  `Except.ok (some url)` is a truthy
resolved target, `Except.ok none` means fall through to the span path
(`r_id` falsy, or target falsy, or no hyperlink markup at all), and
`Except.error` is the `KeyError` raised by `related_parts[r_id]` when
the id is truthy but absent from the dictionary. -/
def hyperlinkOf (env : Env) (r : Run) : Except String (Option String) :=
  if r.hasHyperlink then
    match r.relId with
    | some rid =>
      if rid ≠ "" then
        match env.relatedParts.lookup rid with
        | some target => Except.ok (if target ≠ "" then some target else none)
        | none => Except.error ("KeyError: " ++ rid)
      else Except.ok none
    | none => Except.ok none
  else Except.ok none

/-- The source's `run_to_html` (lines 9-58). -/
def run_to_html (env : Env) (r : Run) : Except String String :=
  let raw_text := pyStrip r.text
  if strStartsWith raw_text "<img" || strStartsWith raw_text "<iframe" then
    Except.ok raw_text
  else
    match hyperlinkOf env r with
    | Except.error e => Except.error e
    | Except.ok (some url) =>
      Except.ok ("<a href=\"" ++ url ++ "\" target=\"_blank\">" ++ pyStrip r.text ++ "</a>")
    | Except.ok none =>
      if pyStrip r.text = "" then Except.ok ""
      else
        Except.ok ("<span style=\"" ++ styleStr r ++ "\">"
                   ++ newlineBr (escapeHtml r.text) ++ "</span>")

/-- Bullet glyphs of line 69 of the source. -/
def bulletSymbols : List Char := ['•', '-', '‣', '◦', '▪']

/-- Whether the first character of the trimmed paragraph text is a
bullet glyph (`first_text and first_text[0] in bullet_symbols`). -/
def firstCharBullet (s : String) : Bool :=
  match s.data with
  | [] => false
  | c :: _ => bulletSymbols.contains c

/-- The source's `detect_list_type` (lines 61-87). -/
def detect_list_type (p : Paragraph) : Bool × Option ListType :=
  let style_name := lowerAscii p.styleName
  let first_text := pyStrip (paraText p)
  if firstCharBullet first_text then (true, some ListType.ul)
  else if strContains style_name "bullet" then (true, some ListType.ul)
  else if strContains style_name "number" then (true, some ListType.ol)
  else
    match p.numPr with
    | some np =>
      if np.ilvl.getD 0 = 0 then (true, some ListType.ol)
      else (true, some ListType.ul)
    | none => (false, none)

/-- The source's `para_to_html` run loop (line 90): render every run in
order; the first `KeyError` aborts the whole list comprehension. -/
def runsToHtml (env : Env) : List Run → Except String (List String)
  | [] => Except.ok []
  | r :: rs =>
    match run_to_html env r with
    | Except.error e => Except.error e
    | Except.ok h =>
      match runsToHtml env rs with
      | Except.error e => Except.error e
      | Except.ok hs => Except.ok (h :: hs)

/-- The source's `para_to_html` (lines 89-106). -/
def para_to_html (env : Env) (p : Paragraph) : Except String (String × Option ListType) :=
  match runsToHtml env p.runs with
  | Except.error e => Except.error e
  | Except.ok parts =>
    let html := String.join parts
    if pyStrip html = "" then Except.ok ("", none)
    else
      let dl := detect_list_type p
      let color_style :=
        match p.runs with
        | [] => ""
        | first :: _ =>
          match first.colorRgb with
          | some c => if c ≠ "" then "style=\"color:#" ++ c ++ ";\"" else ""
          | none => ""
      match dl with
      | (true, some t) =>
        Except.ok ("<li " ++ color_style ++ ">" ++ html ++ "</li>", some t)
      | _ => Except.ok ("<p>" ++ html ++ "</p>", none)

/-- The source's `wrap_list` (lines 108-111). -/
def wrap_list (items : List String) (lt : Option ListType) : String :=
  match lt with
  | none => String.join items
  | some t =>
    if items = [] then String.join items
    else "<" ++ tagName t ++ ">" ++ String.join items ++ "</" ++ tagName t ++ ">"

/-- Tag of an item collected into the FAQ section (line 154). -/
inductive FaqKind where
  | question : FaqKind
  | answer : FaqKind
deriving Repr, DecidableEq

/-- An item of `sections[2]`: `{'type': ..., 'html': ...}`. -/
structure TaggedItem where
  kind : FaqKind
  html : String
deriving Repr, DecidableEq

/-- An element of `faq_pairs` (lines 162-174). -/
structure FaqPair where
  question : String
  answer : String
deriving Repr, DecidableEq

/-- The return value of `docx_to_html_sections` (lines 176-180). -/
structure Result where
  head : String
  text : String
  faq : List FaqPair
deriving Repr, DecidableEq

/-- The mutable locals of the paragraph loop of `docx_to_html_sections`
(lines 115-119): the section counter, the three section accumulators,
and the list buffer with its active type. -/
structure LoopState where
  currentSection : Nat
  head : List String
  text : List String
  faq : List TaggedItem
  listBuffer : List String
  listType : Option ListType
deriving Repr, DecidableEq

/-- Initial loop state (lines 115-119). -/
def initState : LoopState :=
  { currentSection := 0, head := [], text := [], faq := [],
    listBuffer := [], listType := none }

/-- The `is_bold` test of line 152:
`any(run.bold for run in para.runs if run.text.strip())`. -/
def paraIsBold (p : Paragraph) : Bool :=
  p.runs.any (fun r => (pyStrip r.text != "") && r.bold)

/-- One iteration of the paragraph loop (lines 121-156). -/
def stepPara (env : Env) (s : LoopState) (p : Paragraph) : Except String LoopState :=
  let raw_text := pyStrip (paraText p)
  if raw_text = "" ∧ p.runs = [] then Except.ok s
  else if raw_text = "#####" then
    let s1 :=
      if s.listBuffer ≠ [] ∧ s.currentSection = 1 then
        { s with text := s.text ++ [wrap_list s.listBuffer s.listType],
                 listBuffer := [], listType := none }
      else s
    Except.ok { s1 with currentSection := s1.currentSection + 1 }
  else
    match para_to_html env p with
    | Except.error e => Except.error e
    | Except.ok (html, detected) =>
      if html = "" then Except.ok s
      else if s.currentSection ≤ 1 then
        match detected with
        | some t =>
          let s1 :=
            if s.listType ≠ some t ∧ s.listBuffer ≠ [] then
              { s with text := s.text ++ [wrap_list s.listBuffer s.listType],
                       listBuffer := [] }
            else s
          Except.ok { s1 with listType := some t, listBuffer := s1.listBuffer ++ [html] }
        | none =>
          let s1 :=
            if s.listBuffer ≠ [] then
              { s with text := s.text ++ [wrap_list s.listBuffer s.listType],
                       listBuffer := [], listType := none }
            else s
          if s1.currentSection = 0 then Except.ok { s1 with head := s1.head ++ [html] }
          else Except.ok { s1 with text := s1.text ++ [html] }
      else if s.currentSection = 2 then
        Except.ok { s with faq := s.faq ++
          [{ kind := if paraIsBold p then FaqKind.question else FaqKind.answer,
             html := html }] }
      else Except.ok s

/-- The paragraph loop, folded over a list of paragraphs. -/
def runParas (env : Env) (s : LoopState) : List Paragraph → Except String LoopState
  | [] => Except.ok s
  | p :: ps =>
    match stepPara env s p with
    | Except.error e => Except.error e
    | Except.ok s1 => runParas env s1 ps

/-- The FAQ grouping loop of lines 162-174, parameterised by the
`current_q` slot.  Python truthiness of `current_q` (`None` or the
empty string are falsy) is modelled explicitly. -/
def faqLoop : Option String → List TaggedItem → List FaqPair
  | pending, [] =>
    (match pending with
     | some q => if q ≠ "" then [{ question := q, answer := "" }] else []
     | none => [])
  | pending, it :: rest =>
    match it.kind with
    | FaqKind.question =>
      (match pending with
       | some q =>
         if q ≠ "" then { question := q, answer := "" } :: faqLoop (some it.html) rest
         else faqLoop (some it.html) rest
       | none => faqLoop (some it.html) rest)
    | FaqKind.answer =>
      (match pending with
       | some q =>
         if q ≠ "" then { question := q, answer := it.html } :: faqLoop none rest
         else faqLoop pending rest
       | none => faqLoop pending rest)

/-- The source's FAQ grouping (lines 162-174), starting with no pending
question. -/
def faqPairs (items : List TaggedItem) : List FaqPair := faqLoop none items

/-- The source's `docx_to_html_sections` (lines 113-180), over an
already materialised paragraph list and relationship environment. -/
def docx_to_html_sections (env : Env) (paras : List Paragraph) : Except String Result :=
  match runParas env initState paras with
  | Except.error e => Except.error e
  | Except.ok s =>
    let textSecs :=
      if s.listBuffer ≠ [] ∧ s.currentSection = 1 then
        s.text ++ [wrap_list s.listBuffer s.listType]
      else s.text
    Except.ok { head := pyStrip (String.join s.head),
                text := pyStrip (String.join textSecs),
                faq := faqPairs s.faq }

/-! Claim theorems. -/

/-- C7: `detect_list_type` applies its checks in precedence order with
first match winning: (1) first character of the trimmed paragraph text
in the bullet-glyph set gives an unordered list regardless of style or
numbering; (2) otherwise a case-insensitive style name containing
"bullet" gives unordered, else containing "number" gives ordered;
(3) otherwise present numbering metadata gives ordered at indent level
0, unordered at indent level greater than 0; (4) otherwise the
paragraph is not a list item. -/
theorem detect_list_type_precedence (p : Paragraph) :
    (∀ c rest, (pyStrip (paraText p)).data = c :: rest → c ∈ bulletSymbols →
       detect_list_type p = (true, some ListType.ul))
    ∧ (firstCharBullet (pyStrip (paraText p)) = false →
       strContains (lowerAscii p.styleName) "bullet" = true →
       detect_list_type p = (true, some ListType.ul))
    ∧ (firstCharBullet (pyStrip (paraText p)) = false →
       strContains (lowerAscii p.styleName) "bullet" = false →
       strContains (lowerAscii p.styleName) "number" = true →
       detect_list_type p = (true, some ListType.ol))
    ∧ (∀ np, firstCharBullet (pyStrip (paraText p)) = false →
       strContains (lowerAscii p.styleName) "bullet" = false →
       strContains (lowerAscii p.styleName) "number" = false →
       p.numPr = some np → np.ilvl.getD 0 = 0 →
       detect_list_type p = (true, some ListType.ol))
    ∧ (∀ np, firstCharBullet (pyStrip (paraText p)) = false →
       strContains (lowerAscii p.styleName) "bullet" = false →
       strContains (lowerAscii p.styleName) "number" = false →
       p.numPr = some np → 0 < np.ilvl.getD 0 →
       detect_list_type p = (true, some ListType.ul))
    ∧ (firstCharBullet (pyStrip (paraText p)) = false →
       strContains (lowerAscii p.styleName) "bullet" = false →
       strContains (lowerAscii p.styleName) "number" = false →
       p.numPr = none →
       detect_list_type p = (false, none)) := by
  refine ⟨?_, ?_, ?_, ?_, ?_, ?_⟩
  · intro c rest hdata hmem
    have hfc : firstCharBullet (pyStrip (paraText p)) = true := by
      simp [firstCharBullet, hdata, List.contains]
      exact hmem
    simp [detect_list_type, hfc]
  · intro h1 h2
    simp [detect_list_type, h1, h2]
  · intro h1 h2 h3
    simp [detect_list_type, h1, h2, h3]
  · intro np h1 h2 h3 h4 h5
    simp [detect_list_type, h1, h2, h3, h4, h5]
  · intro np h1 h2 h3 h4 h5
    have h6 : ¬ (np.ilvl.getD 0 = 0) := Nat.pos_iff_ne_zero.mp h5
    simp [detect_list_type, h1, h2, h3, h4, h6]
  · intro h1 h2 h3 h4
    simp [detect_list_type, h1, h2, h3, h4]

/-- Witness for C7: a bulleted paragraph whose style also says "number"
is still classified unordered (precedence of the glyph check). -/
theorem detect_list_type_precedence_witness :
    detect_list_type { runs := [{ text := "• x", hasHyperlink := false, relId := none,
                                  bold := false, italic := false, fontSizeFmt := none,
                                  fontName := none, colorRgb := none }],
                       styleName := "List Number", numPr := none }
      = (true, some ListType.ul) :=
  (detect_list_type_precedence _).1 '•' " x".data (by decide) (by decide)

/-- C4: the FAQ pairing loop maps tags `[Q1, A1, Q2, Q3, A3]` to pairs
`[(Q1,A1), (Q2,""), (Q3,A3)]`; in general (for the nonempty html
fragments the splitter produces) an answer with no pending question
yields no pair, a question arriving while another is pending emits the
pending one with an empty answer, a pending question at end of input is
emitted with an empty answer, and an answer arriving while a question
is pending emits that pair — all preserving original item order. -/
theorem faqPairs_semantics :
    (∀ q1 a1 q2 q3 a3 : String, q1 ≠ "" → q2 ≠ "" → q3 ≠ "" →
       faqPairs [⟨FaqKind.question, q1⟩, ⟨FaqKind.answer, a1⟩, ⟨FaqKind.question, q2⟩,
                 ⟨FaqKind.question, q3⟩, ⟨FaqKind.answer, a3⟩]
         = [⟨q1, a1⟩, ⟨q2, ""⟩, ⟨q3, a3⟩])
    ∧ (∀ a rest, faqLoop none (⟨FaqKind.answer, a⟩ :: rest) = faqLoop none rest)
    ∧ (∀ q q2 rest, q ≠ "" →
       faqLoop (some q) (⟨FaqKind.question, q2⟩ :: rest)
         = ⟨q, ""⟩ :: faqLoop (some q2) rest)
    ∧ (∀ q, q ≠ "" → faqLoop (some q) [] = [⟨q, ""⟩])
    ∧ (∀ q a rest, q ≠ "" →
       faqLoop (some q) (⟨FaqKind.answer, a⟩ :: rest) = ⟨q, a⟩ :: faqLoop none rest) := by
  refine ⟨?_, ?_, ?_, ?_, ?_⟩
  · intro q1 a1 q2 q3 a3 h1 h2 h3
    simp [faqPairs, faqLoop, h1, h2, h3]
  · intro a rest; simp [faqLoop]
  · intro q q2 rest h; simp [faqLoop, h]
  · intro q h; simp [faqLoop, h]
  · intro q a rest h; simp [faqLoop, h]

/-- Witness for C4: the five-item example at concrete strings. -/
theorem faqPairs_semantics_witness :
    faqPairs [⟨FaqKind.question, "Q1"⟩, ⟨FaqKind.answer, "A1"⟩, ⟨FaqKind.question, "Q2"⟩,
              ⟨FaqKind.question, "Q3"⟩, ⟨FaqKind.answer, "A3"⟩]
      = [⟨"Q1", "A1"⟩, ⟨"Q2", ""⟩, ⟨"Q3", "A3"⟩] :=
  faqPairs_semantics.1 "Q1" "A1" "Q2" "Q3" "A3" (by decide) (by decide) (by decide)

/-- Replacement distributes over concatenation. -/
theorem replCharL_append (c : Char) (rep l1 l2 : List Char) :
    replCharL c rep (l1 ++ l2) = replCharL c rep l1 ++ replCharL c rep l2 := by
  induction l1 with
  | nil => rfl
  | cons ch rest ih => simp [replCharL, ih]

/-- Escaping one character through the three sequential replacements
equals the one-character escape table: the entities produced by the
`&` replacement are not re-processed by the later `<` and `>`
replacements. -/
theorem escOne (ch : Char) :
    replCharL '>' "&gt;".data (replCharL '<' "&lt;".data
      (if ch = '&' then "&amp;".data else [ch])) = escChar ch := by
  by_cases h1 : ch = '&'
  · subst h1; decide
  · by_cases h2 : ch = '<'
    · subst h2; decide
    · by_cases h3 : ch = '>'
      · subst h3; decide
      · simp [replCharL, escChar, h1, h2, h3]

/-- The chain of the three replacements is a single left-to-right
characterwise pass. -/
theorem escapeChain_eq_escMap (l : List Char) :
    replCharL '>' "&gt;".data (replCharL '<' "&lt;".data
      (replCharL '&' "&amp;".data l)) = escMap l := by
  induction l with
  | nil => rfl
  | cons ch rest ih =>
    have h0 : replCharL '&' "&amp;".data (ch :: rest)
        = (if ch = '&' then "&amp;".data else [ch]) ++ replCharL '&' "&amp;".data rest := by
      simp [replCharL]
    rw [h0, replCharL_append, replCharL_append]
    rw [escOne, ih]
    rfl

/-- A character of the escaped text is a newline only if the source
text had a newline. -/
theorem mem_escMap_newline (l : List Char) (h : '\n' ∈ escMap l) : '\n' ∈ l := by
  induction l with
  | nil => simp [escMap] at h
  | cons ch rest ih =>
    simp only [escMap, List.mem_append] at h
    rcases h with h | h
    · by_cases h1 : ch = '&'
      · subst h1; simp [escChar] at h
      · by_cases h2 : ch = '<'
        · subst h2; simp [escChar] at h
        · by_cases h3 : ch = '>'
          · subst h3; simp [escChar] at h
          · simp [escChar, h1, h2, h3] at h
            exact List.mem_cons.mpr (Or.inl h)
    · exact List.mem_cons_of_mem _ (ih h)

/-- C8: the formatted-span escaping replaces `&` then `<` then `>`, in
that order, which makes the combined effect a single characterwise
pass (no double escaping of produced entities); text without a newline
is left untouched by the line-break step; text with a newline is split
on newlines, each line stripped, empty lines dropped, and the rest
rejoined with `<br>`; in particular a plain run with text
`"a\n \nb"` renders to a span whose body is `a<br>b`. -/
theorem escape_and_newline_behavior :
    (∀ s : String, (escapeHtml s).data = escMap s.data)
    ∧ (∀ s : String, '\n' ∉ s.data → newlineBr (escapeHtml s) = escapeHtml s)
    ∧ (∀ s : String, '\n' ∈ s.data → newlineBr s = brJoin s)
    ∧ run_to_html { relatedParts := [] }
        { text := "a\n \nb", hasHyperlink := false, relId := none, bold := false,
          italic := false, fontSizeFmt := none, fontName := none, colorRgb := none }
      = Except.ok "<span style=\"font-weight:normal;\">a<br>b</span>" := by
  have hesc : ∀ s : String, (escapeHtml s).data = escMap s.data := by
    intro s
    show replCharL '>' "&gt;".data (replCharL '<' "&lt;".data
      (replCharL '&' "&amp;".data s.data)) = escMap s.data
    exact escapeChain_eq_escMap s.data
  refine ⟨hesc, ?_, ?_, ?_⟩
  · intro s hn
    have hmem : '\n' ∉ (escapeHtml s).data := by
      rw [hesc]
      intro hc
      exact hn (mem_escMap_newline _ hc)
    have hcf : (escapeHtml s).data.contains '\n' = false := by
      simp [List.contains]
      exact hmem
    unfold newlineBr
    rw [hcf]
    simp
  · intro s hn
    have hct : s.data.contains '\n' = true := by
      simp [List.contains]
      exact hn
    unfold newlineBr
    rw [hct]
    simp
  · rfl

/-- Witness for C8: the untouched-single-line clause at a concrete
string, via the theorem. -/
theorem escape_and_newline_behavior_witness :
    newlineBr (escapeHtml "a&b") = escapeHtml "a&b" :=
  escape_and_newline_behavior.2.1 "a&b" (by decide)

/-- String concatenation acts on the underlying character lists. -/
theorem string_data_append (a b : String) : (a ++ b).data = a.data ++ b.data := rfl

/-- An environment with no related parts at all. -/
def emptyEnv : Env := { relatedParts := [] }

/-- A hyperlink run whose relationship id is present but missing from
the related-parts dictionary. -/
def danglingRun : Run :=
  { text := "site", hasHyperlink := true, relId := some "rId1", bold := false,
    italic := false, fontSizeFmt := none, fontName := none, colorRgb := none }

/-- Counterexample to C5 as stated: a hyperlink run whose relationship
id `rId1` is absent from the related-parts dictionary does not fall
through to the formatted-span path — the dictionary subscript raises
`KeyError`, which propagates out of rendering. -/
theorem run_to_html_keyerror_counterexample :
    run_to_html emptyEnv danglingRun = Except.error "KeyError: rId1" := by rfl

/-- C5 (amended): hyperlink handling of `run_to_html` for a run that is
not raw-markup passthrough and participates in hyperlink markup.  A
relationship id that resolves to a nonempty target yields the
`target="_blank"` anchor wrapping the trimmed run text; an absent or
empty id, or an id resolving to an empty target, falls through to the
formatted-span path on the raw text; but a nonempty id missing from
the related-parts dictionary raises `KeyError`, which propagates. -/
theorem run_to_html_hyperlink_cases (env : Env) (r : Run)
    (hImg : strStartsWith (pyStrip r.text) "<img" = false)
    (hIfr : strStartsWith (pyStrip r.text) "<iframe" = false)
    (hH : r.hasHyperlink = true) :
    (∀ rid url, r.relId = some rid → rid ≠ "" →
       env.relatedParts.lookup rid = some url → url ≠ "" →
       run_to_html env r
         = Except.ok ("<a href=\"" ++ url ++ "\" target=\"_blank\">" ++ pyStrip r.text ++ "</a>"))
    ∧ ((r.relId = none ∨ r.relId = some "") →
       run_to_html env r
         = Except.ok (if pyStrip r.text = "" then ""
             else "<span style=\"" ++ styleStr r ++ "\">"
                  ++ newlineBr (escapeHtml r.text) ++ "</span>"))
    ∧ (∀ rid, r.relId = some rid → rid ≠ "" →
       env.relatedParts.lookup rid = some "" →
       run_to_html env r
         = Except.ok (if pyStrip r.text = "" then ""
             else "<span style=\"" ++ styleStr r ++ "\">"
                  ++ newlineBr (escapeHtml r.text) ++ "</span>"))
    ∧ (∀ rid, r.relId = some rid → rid ≠ "" →
       env.relatedParts.lookup rid = none →
       run_to_html env r = Except.error ("KeyError: " ++ rid)) := by
  refine ⟨?_, ?_, ?_, ?_⟩
  · intro rid url h1 h2 h3 h4
    simp [run_to_html, hyperlinkOf, hImg, hIfr, hH, h1, h2, h3, h4]
  · intro h1
    by_cases hp : pyStrip r.text = ""
    · rcases h1 with h1 | h1 <;> simp [run_to_html, hyperlinkOf, hImg, hIfr, hH, h1, hp]
    · rcases h1 with h1 | h1 <;> simp [run_to_html, hyperlinkOf, hImg, hIfr, hH, h1, hp]
  · intro rid h1 h2 h3
    by_cases hp : pyStrip r.text = ""
    · simp [run_to_html, hyperlinkOf, hImg, hIfr, hH, h1, h2, h3, hp]
    · simp [run_to_html, hyperlinkOf, hImg, hIfr, hH, h1, h2, h3, hp]
  · intro rid h1 h2 h3
    simp [run_to_html, hyperlinkOf, hImg, hIfr, hH, h1, h2, h3]

/-- Witness for C5 (amended): a run with text `"site"` and a
relationship resolving to `https://example.com` renders to the
documented anchor fragment. -/
theorem run_to_html_hyperlink_cases_witness :
    run_to_html { relatedParts := [("rId1", "https://example.com")] }
      { text := "site", hasHyperlink := true, relId := some "rId1", bold := false,
        italic := false, fontSizeFmt := none, fontName := none, colorRgb := none }
      = Except.ok "<a href=\"https://example.com\" target=\"_blank\">site</a>" := by
  have h := (run_to_html_hyperlink_cases
    { relatedParts := [("rId1", "https://example.com")] }
    { text := "site", hasHyperlink := true, relId := some "rId1", bold := false,
      italic := false, fontSizeFmt := none, fontName := none, colorRgb := none }
    (by decide) (by decide) (by decide)).1 "rId1" "https://example.com"
    rfl (by decide) (by decide) (by decide)
  rw [h]
  rfl

/-- C10: in the hyperlink path, the resolved target URL and the run's
trimmed text are interpolated into the anchor fragment verbatim — the
emitted fragment's character data is exactly the anchor prefix, the
URL's own characters, the attribute middle, the trimmed text's own
characters, and the closing tag, with no escaping of `&`, `<`, `>` or
`"`. -/
theorem hyperlink_interpolation_verbatim (env : Env) (r : Run) (rid url : String)
    (hImg : strStartsWith (pyStrip r.text) "<img" = false)
    (hIfr : strStartsWith (pyStrip r.text) "<iframe" = false)
    (hH : r.hasHyperlink = true)
    (h1 : r.relId = some rid) (h2 : rid ≠ "")
    (h3 : env.relatedParts.lookup rid = some url) (h4 : url ≠ "") :
    run_to_html env r
      = Except.ok ⟨"<a href=\"".data ++ url.data ++ "\" target=\"_blank\">".data
                   ++ (pyStrip r.text).data ++ "</a>".data⟩ := by
  have hmain : run_to_html env r
      = Except.ok ("<a href=\"" ++ url ++ "\" target=\"_blank\">" ++ pyStrip r.text ++ "</a>") := by
    simp [run_to_html, hyperlinkOf, hImg, hIfr, hH, h1, h2, h3, h4]
  rw [hmain]
  apply congrArg Except.ok
  apply String.ext
  simp [string_data_append, List.append_assoc]

/-- Witness for C10: a URL and link text full of `&`, `<`, `>` and `"`
appear verbatim in the anchor output. -/
theorem hyperlink_interpolation_verbatim_witness :
    run_to_html { relatedParts := [("r7", "https://e.com/?a=1&b=<q>\"x")] }
      { text := " a<&>\"b ", hasHyperlink := true, relId := some "r7", bold := false,
        italic := false, fontSizeFmt := none, fontName := none, colorRgb := none }
      = Except.ok "<a href=\"https://e.com/?a=1&b=<q>\"x\" target=\"_blank\">a<&>\"b</a>" := by
  have h := hyperlink_interpolation_verbatim
    { relatedParts := [("r7", "https://e.com/?a=1&b=<q>\"x")] }
    { text := " a<&>\"b ", hasHyperlink := true, relId := some "r7", bold := false,
      italic := false, fontSizeFmt := none, fontName := none, colorRgb := none }
    "r7" "https://e.com/?a=1&b=<q>\"x"
    (by decide) (by decide) (by decide) rfl (by decide) (by decide) (by decide)
  rw [h]
  rfl

/-! Derived closed forms of the loop branches, used to state and prove
facts about `stepPara`. -/

/-- The text output extended by the wrapped current buffer. -/
def flushedText (s : LoopState) : List String :=
  s.text ++ [wrap_list s.listBuffer s.listType]

/-- Effect of a sentinel paragraph (lines 126-132). -/
def sentinelStep (s : LoopState) : LoopState :=
  if s.listBuffer ≠ [] ∧ s.currentSection = 1 then
    { s with currentSection := 2, text := flushedText s, listBuffer := [], listType := none }
  else { s with currentSection := s.currentSection + 1 }

/-- Effect of a list-classified paragraph in state HEAD or TEXT
(lines 139-144). -/
def accList (s : LoopState) (html : String) (t : ListType) : LoopState :=
  if s.listType ≠ some t ∧ s.listBuffer ≠ [] then
    { s with text := flushedText s, listBuffer := [html], listType := some t }
  else { s with listBuffer := s.listBuffer ++ [html], listType := some t }

/-- Effect of a non-list paragraph in state HEAD or TEXT
(lines 145-150). -/
def appendPlain (s : LoopState) (html : String) : LoopState :=
  if s.listBuffer ≠ [] then
    (if s.currentSection = 0 then
      { s with text := flushedText s, listBuffer := [], listType := none,
               head := s.head ++ [html] }
     else
      { s with text := flushedText s ++ [html], listBuffer := [], listType := none })
  else
    (if s.currentSection = 0 then { s with head := s.head ++ [html] }
     else { s with text := s.text ++ [html] })

/-- The tagged item built for the FAQ section (lines 152-156). -/
def faqTag (p : Paragraph) (html : String) : TaggedItem :=
  { kind := if paraIsBold p then FaqKind.question else FaqKind.answer, html := html }

/-- A paragraph with no runs renders to the empty fragment. -/
theorem para_to_html_runs_nil (env : Env) (p : Paragraph) (h : p.runs = []) :
    para_to_html env p = Except.ok ("", none) := by
  simp [para_to_html, runsToHtml, h]
  intro hx
  exact absurd rfl hx

/-- Branch lemma: a paragraph with empty trimmed text and no runs is
skipped. -/
theorem stepPara_skip (env : Env) (s : LoopState) (p : Paragraph)
    (h1 : pyStrip (paraText p) = "") (h2 : p.runs = []) :
    stepPara env s p = Except.ok s := by
  simp [stepPara, h1, h2]

/-- Branch lemma: a sentinel paragraph performs `sentinelStep`. -/
theorem stepPara_sentinel (env : Env) (s : LoopState) (p : Paragraph)
    (h : pyStrip (paraText p) = "#####") :
    stepPara env s p = Except.ok (sentinelStep s) := by
  by_cases hc : s.listBuffer ≠ [] ∧ s.currentSection = 1
  · simp [stepPara, h, sentinelStep, hc, hc.2, flushedText]
  · simp [stepPara, h, sentinelStep, hc]

/-- Branch lemma: a paragraph rendering to the empty fragment changes
nothing. -/
theorem stepPara_html_empty (env : Env) (s : LoopState) (p : Paragraph)
    (d : Option ListType)
    (hrender : para_to_html env p = Except.ok ("", d))
    (hsent : pyStrip (paraText p) ≠ "#####") :
    stepPara env s p = Except.ok s := by
  by_cases hskip : pyStrip (paraText p) = "" ∧ p.runs = []
  · simp [stepPara, hskip.1, hskip.2]
  · simp [stepPara, hskip, hsent, hrender]

/-- A step whose paragraph renders to a nonempty fragment cannot be the
skip branch. -/
theorem not_skip_of_render (env : Env) (p : Paragraph) (html : String)
    (d : Option ListType)
    (hrender : para_to_html env p = Except.ok (html, d)) (hne : html ≠ "") :
    ¬ (pyStrip (paraText p) = "" ∧ p.runs = []) := by
  intro hskip
  rw [para_to_html_runs_nil env p hskip.2] at hrender
  injection hrender with h
  have h1 : "" = html := congrArg Prod.fst h
  exact hne h1.symm

/-- Branch lemma: a list-classified paragraph in state HEAD or TEXT
performs `accList`. -/
theorem stepPara_list (env : Env) (s : LoopState) (p : Paragraph)
    (html : String) (t : ListType)
    (hrender : para_to_html env p = Except.ok (html, some t)) (hne : html ≠ "")
    (hsec : s.currentSection ≤ 1)
    (hsent : pyStrip (paraText p) ≠ "#####") :
    stepPara env s p = Except.ok (accList s html t) := by
  have hskip := not_skip_of_render env p html (some t) hrender hne
  by_cases hc : s.listType ≠ some t ∧ s.listBuffer ≠ []
  · simp [stepPara, hskip, hsent, hrender, hne, hsec, accList, hc, flushedText]
  · simp [stepPara, hskip, hsent, hrender, hne, hsec, accList, hc, flushedText]

/-- Branch lemma: a non-list paragraph in state HEAD or TEXT performs
`appendPlain`. -/
theorem stepPara_plain (env : Env) (s : LoopState) (p : Paragraph) (html : String)
    (hrender : para_to_html env p = Except.ok (html, none)) (hne : html ≠ "")
    (hsec : s.currentSection ≤ 1)
    (hsent : pyStrip (paraText p) ≠ "#####") :
    stepPara env s p = Except.ok (appendPlain s html) := by
  have hskip := not_skip_of_render env p html none hrender hne
  by_cases hb : s.listBuffer ≠ [] <;> by_cases h0 : s.currentSection = 0 <;>
    simp [stepPara, hskip, hsent, hrender, hne, hsec, appendPlain, hb, h0, flushedText]

/-- Branch lemma: a rendering paragraph in state FAQ appends one tagged
item. -/
theorem stepPara_faq (env : Env) (s : LoopState) (p : Paragraph) (html : String)
    (d : Option ListType)
    (hrender : para_to_html env p = Except.ok (html, d)) (hne : html ≠ "")
    (hsec : s.currentSection = 2)
    (hsent : pyStrip (paraText p) ≠ "#####") :
    stepPara env s p = Except.ok { s with faq := s.faq ++ [faqTag p html] } := by
  have hskip := not_skip_of_render env p html d hrender hne
  have hle : ¬ s.currentSection ≤ 1 := by omega
  simp [stepPara, hskip, hsent, hrender, hne, hle, hsec, faqTag]

/-- Branch lemma: past state FAQ, a rendering paragraph changes
nothing. -/
theorem stepPara_late (env : Env) (s : LoopState) (p : Paragraph) (html : String)
    (d : Option ListType)
    (hrender : para_to_html env p = Except.ok (html, d))
    (hsec : 3 ≤ s.currentSection)
    (hsent : pyStrip (paraText p) ≠ "#####") :
    stepPara env s p = Except.ok s := by
  by_cases hne : html = ""
  · exact stepPara_html_empty env s p d (hne ▸ hrender) hsent
  · have hskip := not_skip_of_render env p html d hrender hne
    have hle : ¬ s.currentSection ≤ 1 := by omega
    have h2 : s.currentSection ≠ 2 := by omega
    simp [stepPara, hskip, hsent, hrender, hne, hle, h2]

/-- A failed paragraph rendering aborts the step. -/
theorem stepPara_error_case (env : Env) (s : LoopState) (p : Paragraph) (e : String)
    (hskip : ¬ (pyStrip (paraText p) = "" ∧ p.runs = []))
    (hsent : pyStrip (paraText p) ≠ "#####")
    (hr : para_to_html env p = Except.error e) :
    stepPara env s p = Except.error e := by
  simp [stepPara, hskip, hsent, hr]

/-- Master case analysis for a successful step: it is a no-op, a
sentinel transition, a list accumulation, a plain append, or an FAQ
append. -/
theorem stepPara_cases (env : Env) (s : LoopState) (p : Paragraph) (s' : LoopState)
    (hok : stepPara env s p = Except.ok s') :
    s' = s
    ∨ (pyStrip (paraText p) = "#####" ∧ s' = sentinelStep s)
    ∨ (∃ html t, pyStrip (paraText p) ≠ "#####"
        ∧ para_to_html env p = Except.ok (html, some t)
        ∧ html ≠ "" ∧ s.currentSection ≤ 1 ∧ s' = accList s html t)
    ∨ (∃ html, pyStrip (paraText p) ≠ "#####"
        ∧ para_to_html env p = Except.ok (html, none)
        ∧ html ≠ "" ∧ s.currentSection ≤ 1 ∧ s' = appendPlain s html)
    ∨ (∃ html d, pyStrip (paraText p) ≠ "#####"
        ∧ para_to_html env p = Except.ok (html, d)
        ∧ html ≠ "" ∧ s.currentSection = 2
        ∧ s' = { s with faq := s.faq ++ [faqTag p html] }) := by
  by_cases hsent : pyStrip (paraText p) = "#####"
  · right; left
    refine ⟨hsent, ?_⟩
    rw [stepPara_sentinel env s p hsent] at hok
    injection hok with h; exact h.symm
  · by_cases hskip : pyStrip (paraText p) = "" ∧ p.runs = []
    · left
      rw [stepPara_skip env s p hskip.1 hskip.2] at hok
      injection hok with h; exact h.symm
    · cases hr : para_to_html env p with
      | error e =>
        rw [stepPara_error_case env s p e hskip hsent hr] at hok
        simp at hok
      | ok v =>
        obtain ⟨html, d⟩ := v
        by_cases hne : html = ""
        · left
          subst hne
          rw [stepPara_html_empty env s p d hr hsent] at hok
          injection hok with h; exact h.symm
        · by_cases hle : s.currentSection ≤ 1
          · cases d with
            | some t =>
              right; right; left
              refine ⟨html, t, hsent, rfl, hne, hle, ?_⟩
              rw [stepPara_list env s p html t hr hne hle hsent] at hok
              injection hok with h; exact h.symm
            | none =>
              right; right; right; left
              refine ⟨html, hsent, rfl, hne, hle, ?_⟩
              rw [stepPara_plain env s p html hr hne hle hsent] at hok
              injection hok with h; exact h.symm
          · by_cases h2 : s.currentSection = 2
            · right; right; right; right
              refine ⟨html, d, hsent, rfl, hne, h2, ?_⟩
              rw [stepPara_faq env s p html d hr hne h2 hsent] at hok
              injection hok with h; exact h.symm
            · left
              rw [stepPara_late env s p html d hr (by omega) hsent] at hok
              injection hok with h; exact h.symm

/-- The sentinel transition increments the section counter. -/
theorem sentinelStep_currentSection (s : LoopState) :
    (sentinelStep s).currentSection = s.currentSection + 1 := by
  unfold sentinelStep
  split
  · next h => simp [h.2]
  · rfl

/-- The sentinel transition never touches head output. -/
theorem sentinelStep_head (s : LoopState) : (sentinelStep s).head = s.head := by
  unfold sentinelStep; split <;> rfl

/-- The sentinel transition never touches the FAQ items. -/
theorem sentinelStep_faq (s : LoopState) : (sentinelStep s).faq = s.faq := by
  unfold sentinelStep; split <;> rfl

/-- List accumulation never changes the section counter. -/
theorem accList_currentSection (s : LoopState) (html : String) (t : ListType) :
    (accList s html t).currentSection = s.currentSection := by
  unfold accList; split <;> rfl

/-- List accumulation never touches head output. -/
theorem accList_head (s : LoopState) (html : String) (t : ListType) :
    (accList s html t).head = s.head := by
  unfold accList; split <;> rfl

/-- List accumulation never touches the FAQ items. -/
theorem accList_faq (s : LoopState) (html : String) (t : ListType) :
    (accList s html t).faq = s.faq := by
  unfold accList; split <;> rfl

/-- List accumulation leaves a nonempty buffer ending in the new item. -/
theorem accList_listBuffer (s : LoopState) (html : String) (t : ListType) :
    (accList s html t).listBuffer
      = (if s.listType ≠ some t ∧ s.listBuffer ≠ [] then [html] else s.listBuffer ++ [html]) := by
  unfold accList; split <;> simp_all

/-- A plain append never changes the section counter. -/
theorem appendPlain_currentSection (s : LoopState) (html : String) :
    (appendPlain s html).currentSection = s.currentSection := by
  unfold appendPlain
  by_cases hb : s.listBuffer ≠ [] <;> by_cases h0 : s.currentSection = 0 <;>
    simp [hb, h0]

/-- A plain append never touches the FAQ items. -/
theorem appendPlain_faq (s : LoopState) (html : String) :
    (appendPlain s html).faq = s.faq := by
  unfold appendPlain
  by_cases hb : s.listBuffer ≠ [] <;> by_cases h0 : s.currentSection = 0 <;>
    simp [hb, h0]

/-- A plain append touches head output exactly in state HEAD. -/
theorem appendPlain_head (s : LoopState) (html : String) :
    (appendPlain s html).head
      = (if s.currentSection = 0 then s.head ++ [html] else s.head) := by
  unfold appendPlain
  by_cases hb : s.listBuffer ≠ [] <;> by_cases h0 : s.currentSection = 0 <;>
    simp [hb, h0]

/-- The section counter never decreases across a step. -/
theorem stepPara_section_mono (env : Env) (s : LoopState) (p : Paragraph) (s' : LoopState)
    (hok : stepPara env s p = Except.ok s') :
    s.currentSection ≤ s'.currentSection := by
  rcases stepPara_cases env s p s' hok with h | ⟨_, h⟩ | ⟨html, t, _, _, _, _, h⟩
    | ⟨html, _, _, _, _, h⟩ | ⟨html, d, _, _, _, _, h⟩ <;> subst h
  · exact Nat.le_refl _
  · rw [sentinelStep_currentSection]; omega
  · rw [accList_currentSection]
  · rw [appendPlain_currentSection]
  · exact Nat.le_refl _

/-- A non-sentinel step preserves the section counter. -/
theorem stepPara_section_nonsent (env : Env) (s : LoopState) (p : Paragraph) (s' : LoopState)
    (hok : stepPara env s p = Except.ok s')
    (hsent : pyStrip (paraText p) ≠ "#####") :
    s'.currentSection = s.currentSection := by
  rcases stepPara_cases env s p s' hok with h | ⟨hs, h⟩ | ⟨html, t, _, _, _, _, h⟩
    | ⟨html, _, _, _, _, h⟩ | ⟨html, d, _, _, _, _, h⟩
  · subst h; rfl
  · exact absurd hs hsent
  · subst h; exact accList_currentSection ..
  · subst h; exact appendPlain_currentSection ..
  · subst h; rfl

/-- Once past state HEAD, a step never changes head output. -/
theorem stepPara_head_ge1 (env : Env) (s : LoopState) (p : Paragraph) (s' : LoopState)
    (hok : stepPara env s p = Except.ok s')
    (h1 : 1 ≤ s.currentSection) :
    s'.head = s.head := by
  rcases stepPara_cases env s p s' hok with h | ⟨_, h⟩ | ⟨html, t, _, _, _, _, h⟩
    | ⟨html, _, _, _, _, h⟩ | ⟨html, d, _, _, _, _, h⟩ <;> subst h
  · rfl
  · exact sentinelStep_head ..
  · exact accList_head ..
  · rw [appendPlain_head]; simp; omega
  · rfl

/-- Outside state FAQ, a step never changes the FAQ items. -/
theorem stepPara_faq_ne2 (env : Env) (s : LoopState) (p : Paragraph) (s' : LoopState)
    (hok : stepPara env s p = Except.ok s')
    (h2 : s.currentSection ≠ 2) :
    s'.faq = s.faq := by
  rcases stepPara_cases env s p s' hok with h | ⟨_, h⟩ | ⟨html, t, _, _, _, _, h⟩
    | ⟨html, _, _, _, _, h⟩ | ⟨html, d, _, _, _, hsec, h⟩
  · subst h; rfl
  · subst h; exact sentinelStep_faq ..
  · subst h; exact accList_faq ..
  · subst h; exact appendPlain_faq ..
  · exact absurd hsec h2

/-- A paragraph whose rendering succeeds. -/
def rendersOk (env : Env) (p : Paragraph) : Prop :=
  ∃ v, para_to_html env p = Except.ok v

/-- A step on a successfully rendering paragraph always succeeds. -/
theorem stepPara_ok (env : Env) (s : LoopState) (p : Paragraph)
    (hren : rendersOk env p) :
    ∃ s', stepPara env s p = Except.ok s' := by
  by_cases hsent : pyStrip (paraText p) = "#####"
  · exact ⟨_, stepPara_sentinel env s p hsent⟩
  · obtain ⟨⟨html, d⟩, hr⟩ := hren
    by_cases hne : html = ""
    · exact ⟨s, stepPara_html_empty env s p d (hne ▸ hr) hsent⟩
    · by_cases hle : s.currentSection ≤ 1
      · cases d with
        | some t => exact ⟨_, stepPara_list env s p html t hr hne hle hsent⟩
        | none => exact ⟨_, stepPara_plain env s p html hr hne hle hsent⟩
      · by_cases h2 : s.currentSection = 2
        · exact ⟨_, stepPara_faq env s p html d hr hne h2 hsent⟩
        · exact ⟨s, stepPara_late env s p html d hr (by omega) hsent⟩

/-- The loop splits over list concatenation. -/
theorem runParas_append (env : Env) (l1 l2 : List Paragraph) (s : LoopState) :
    runParas env s (l1 ++ l2)
      = (match runParas env s l1 with
         | Except.error e => Except.error e
         | Except.ok s1 => runParas env s1 l2) := by
  induction l1 generalizing s with
  | nil => simp [runParas]
  | cons p ps ih =>
    simp only [List.cons_append, runParas]
    cases hstep : stepPara env s p with
    | error e => rfl
    | ok s1 => exact ih s1

/-- Over a sentinel-free, successfully rendering segment the loop
succeeds, keeps the section counter, keeps the FAQ items while outside
state FAQ, and keeps the head output once past state HEAD. -/
theorem runParas_nonsent_inv (env : Env) (l : List Paragraph) :
    ∀ s : LoopState,
      (∀ p ∈ l, pyStrip (paraText p) ≠ "#####" ∧ rendersOk env p) →
      ∃ s', runParas env s l = Except.ok s'
        ∧ s'.currentSection = s.currentSection
        ∧ (s.currentSection ≠ 2 → s'.faq = s.faq)
        ∧ (1 ≤ s.currentSection → s'.head = s.head) := by
  induction l with
  | nil =>
    intro s _
    exact ⟨s, rfl, rfl, fun _ => rfl, fun _ => rfl⟩
  | cons p ps ih =>
    intro s hl
    obtain ⟨hsent, hren⟩ := hl p (List.mem_cons_self _ _)
    obtain ⟨s1, hs1⟩ := stepPara_ok env s p hren
    obtain ⟨s', hrun, hsec, hfaq, hhead⟩ := ih s1 (fun q hq => hl q (List.mem_cons_of_mem _ hq))
    have hsec1 : s1.currentSection = s.currentSection :=
      stepPara_section_nonsent env s p s1 hs1 hsent
    refine ⟨s', ?_, ?_, ?_, ?_⟩
    · simp only [runParas, hs1]; exact hrun
    · rw [hsec, hsec1]
    · intro h2
      rw [hfaq (by rw [hsec1]; exact h2)]
      exact stepPara_faq_ne2 env s p s1 hs1 h2
    · intro h1
      rw [hhead (by rw [hsec1]; exact h1)]
      exact stepPara_head_ge1 env s p s1 hs1 h1

/-- The tagged FAQ items a paragraph contributes in state FAQ: none if
it renders empty, else one item tagged by boldness. -/
def faqItemOf (env : Env) (p : Paragraph) : List TaggedItem :=
  match para_to_html env p with
  | Except.error _ => []
  | Except.ok (html, _) => if html = "" then [] else [faqTag p html]

/-- The tagged FAQ items a whole segment contributes in state FAQ. -/
def collectFaq (env : Env) : List Paragraph → List TaggedItem
  | [] => []
  | p :: ps => faqItemOf env p ++ collectFaq env ps

/-- A non-sentinel step in state FAQ appends exactly the paragraph's
FAQ items and changes nothing else. -/
theorem stepPara_sec2 (env : Env) (s : LoopState) (p : Paragraph)
    (h2 : s.currentSection = 2)
    (hsent : pyStrip (paraText p) ≠ "#####")
    (hren : rendersOk env p) :
    stepPara env s p = Except.ok { s with faq := s.faq ++ faqItemOf env p } := by
  obtain ⟨⟨html, d⟩, hr⟩ := hren
  by_cases hne : html = ""
  · rw [stepPara_html_empty env s p d (hne ▸ hr) hsent]
    subst hne
    simp [faqItemOf, hr]
  · rw [stepPara_faq env s p html d hr hne h2 hsent]
    simp [faqItemOf, hr, hne]

/-- Over a sentinel-free, successfully rendering segment in state FAQ,
the loop appends exactly the collected FAQ items. -/
theorem runParas_sec2 (env : Env) (l : List Paragraph) :
    ∀ s : LoopState, s.currentSection = 2 →
      (∀ p ∈ l, pyStrip (paraText p) ≠ "#####" ∧ rendersOk env p) →
      runParas env s l = Except.ok { s with faq := s.faq ++ collectFaq env l } := by
  induction l with
  | nil =>
    intro s _ _
    simp [runParas, collectFaq]
  | cons p ps ih =>
    intro s h2 hl
    obtain ⟨hsent, hren⟩ := hl p (List.mem_cons_self _ _)
    have hstep := stepPara_sec2 env s p h2 hsent hren
    have hrec := ih { s with faq := s.faq ++ faqItemOf env p } (by simpa using h2)
      (fun q hq => hl q (List.mem_cons_of_mem _ hq))
    simp only [runParas, hstep, hrec, collectFaq]
    simp [List.append_assoc]

/-- Past state FAQ, a sentinel-free, successfully rendering segment
changes nothing. -/
theorem runParas_ge3 (env : Env) (l : List Paragraph) :
    ∀ s : LoopState, 3 ≤ s.currentSection →
      (∀ p ∈ l, pyStrip (paraText p) ≠ "#####" ∧ rendersOk env p) →
      runParas env s l = Except.ok s := by
  induction l with
  | nil => intro s _ _; rfl
  | cons p ps ih =>
    intro s h3 hl
    obtain ⟨hsent, hren⟩ := hl p (List.mem_cons_self _ _)
    obtain ⟨⟨html, d⟩, hr⟩ := hren
    have hstep := stepPara_late env s p html d hr h3 hsent
    simp only [runParas, hstep]
    exact ih s h3 (fun q hq => hl q (List.mem_cons_of_mem _ hq))

/-- The conversion in terms of the final loop state. -/
theorem docx_runParas (env : Env) (paras : List Paragraph) (st : LoopState)
    (h : runParas env initState paras = Except.ok st) :
    docx_to_html_sections env paras
      = Except.ok { head := pyStrip (String.join st.head),
                    text := pyStrip (String.join
                      (if st.listBuffer ≠ [] ∧ st.currentSection = 1 then
                         st.text ++ [wrap_list st.listBuffer st.listType]
                       else st.text)),
                    faq := faqPairs st.faq } := by
  simp [docx_to_html_sections, h]

/-- A sentinel taken in state TEXT leaves an empty buffer behind. -/
theorem sentinelStep_listBuffer_sec1 (s : LoopState) (h : s.currentSection = 1) :
    (sentinelStep s).listBuffer = [] := by
  unfold sentinelStep
  split
  · rfl
  · next hc =>
    exact not_not.mp (fun hb => hc ⟨hb, h⟩)

/-- A sentinel taken outside state TEXT only increments the counter. -/
theorem sentinelStep_ne1 (s : LoopState) (h : s.currentSection ≠ 1) :
    sentinelStep s = { s with currentSection := s.currentSection + 1 } := by
  unfold sentinelStep
  rw [if_neg (fun hc => absurd hc.2 h)]

/-- A run with given text and bold flag and no other attributes. -/
def plainRun (t : String) (b : Bool) : Run :=
  { text := t, hasHyperlink := false, relId := none, bold := b, italic := false,
    fontSizeFmt := none, fontName := none, colorRgb := none }

/-- A one-run paragraph with default style and no numbering. -/
def plainPara (t : String) (b : Bool) : Paragraph :=
  { runs := [plainRun t b], styleName := "Normal", numPr := none }

/-- A bulleted paragraph. -/
def bulletPara : Paragraph := plainPara "• x" false

/-- A sentinel marker paragraph. -/
def sentinelPara : Paragraph := plainPara "#####" false

/-- A bold FAQ question paragraph. -/
def faqQPara : Paragraph := plainPara "What?" true

/-- A non-bold FAQ answer paragraph. -/
def faqAPara : Paragraph := plainPara "Ans" false

/-- Counterexample to C1 as stated: a document that is a single
bulleted paragraph ends in state HEAD with a nonempty list buffer; the
end-of-stream flush is conditioned on state TEXT, so the rendered,
nonempty list item appears in no field of the Result — it is silently
dropped. -/
theorem list_buffer_dropped_counterexample :
    para_to_html emptyEnv bulletPara
      = Except.ok ("<li ><span style=\"font-weight:normal;\">• x</span></li>",
                   some ListType.ul)
    ∧ docx_to_html_sections emptyEnv [bulletPara]
      = Except.ok { head := "", text := "", faq := [] } :=
  ⟨rfl, rfl⟩

/-- C1 (amended): the list buffer is flushed when the buffered type
changes under an incoming list item (in HEAD or TEXT state), and on a
sentinel or at stream end exactly when the splitter is in state TEXT;
a sentinel in another state advances the section and carries the
buffer unflushed, and a buffer still pending at stream end outside
state TEXT is dropped from the Result. -/
theorem list_buffer_flush_discipline (env : Env) (s : LoopState) (p : Paragraph)
    (ps : List Paragraph) :
    (∀ html t, para_to_html env p = Except.ok (html, some t) → html ≠ "" →
       pyStrip (paraText p) ≠ "#####" → s.currentSection ≤ 1 →
       s.listType ≠ some t → s.listBuffer ≠ [] →
       stepPara env s p = Except.ok
         { s with text := s.text ++ [wrap_list s.listBuffer s.listType],
                  listBuffer := [html], listType := some t })
    ∧ (pyStrip (paraText p) = "#####" → s.currentSection = 1 → s.listBuffer ≠ [] →
       stepPara env s p = Except.ok
         { s with currentSection := 2,
                  text := s.text ++ [wrap_list s.listBuffer s.listType],
                  listBuffer := [], listType := none })
    ∧ (pyStrip (paraText p) = "#####" → s.currentSection ≠ 1 →
       stepPara env s p = Except.ok { s with currentSection := s.currentSection + 1 })
    ∧ (∀ st, runParas env initState ps = Except.ok st →
       st.currentSection = 1 → st.listBuffer ≠ [] →
       docx_to_html_sections env ps = Except.ok
         { head := pyStrip (String.join st.head),
           text := pyStrip (String.join (st.text ++ [wrap_list st.listBuffer st.listType])),
           faq := faqPairs st.faq })
    ∧ (∀ st, runParas env initState ps = Except.ok st →
       st.currentSection ≠ 1 →
       docx_to_html_sections env ps = Except.ok
         { head := pyStrip (String.join st.head),
           text := pyStrip (String.join st.text),
           faq := faqPairs st.faq }) := by
  refine ⟨?_, ?_, ?_, ?_, ?_⟩
  · intro html t hr hne hsent hle hty hb
    rw [stepPara_list env s p html t hr hne hle hsent]
    unfold accList flushedText
    rw [if_pos ⟨hty, hb⟩]
  · intro hsent h1 hb
    rw [stepPara_sentinel env s p hsent]
    unfold sentinelStep flushedText
    rw [if_pos ⟨hb, h1⟩]
  · intro hsent h1
    rw [stepPara_sentinel env s p hsent]
    unfold sentinelStep
    rw [if_neg (fun hc => absurd hc.2 h1)]
  · intro st hrun h1 hb
    rw [docx_runParas env ps st hrun, if_pos ⟨hb, h1⟩]
  · intro st hrun h1
    rw [docx_runParas env ps st hrun, if_neg (fun hc => absurd hc.2 h1)]

/-- Witness for C1 (amended): a sentinel in state TEXT flushes a
pending one-item buffer into the text output. -/
theorem list_buffer_flush_discipline_witness :
    stepPara emptyEnv
      { currentSection := 1, head := [], text := [], faq := [],
        listBuffer := ["<li >x</li>"], listType := some ListType.ul }
      sentinelPara
      = Except.ok { currentSection := 2, head := [], text := ["<ul><li >x</li></ul>"],
                    faq := [], listBuffer := [], listType := none } := by
  have h := (list_buffer_flush_discipline emptyEnv
      { currentSection := 1, head := [], text := [], faq := [],
        listBuffer := ["<li >x</li>"], listType := some ListType.ul }
      sentinelPara []).2.1 (by decide) rfl (by decide)
  rw [h]
  rfl

/-- Counterexample to C2 as stated: with documents
`[#####, #####, Q, #####, A]` and `[#####, #####, Q, A]`, the extra
sentinel inside the FAQ section is not a no-op — the answer paragraph
after it is not processed under the FAQ state and the resulting pair
loses its answer. -/
theorem sentinel_in_faq_counterexample :
    docx_to_html_sections emptyEnv [sentinelPara, sentinelPara, faqQPara, sentinelPara, faqAPara]
      = Except.ok { head := "", text := "",
                    faq := [{ question := "<p><span style=\"font-weight:bold;\">What?</span></p>",
                              answer := "" }] }
    ∧ docx_to_html_sections emptyEnv [sentinelPara, sentinelPara, faqQPara, faqAPara]
      = Except.ok { head := "", text := "",
                    faq := [{ question := "<p><span style=\"font-weight:bold;\">What?</span></p>",
                              answer := "<p><span style=\"font-weight:normal;\">Ans</span></p>" }] } :=
  ⟨rfl, rfl⟩

/-- C2 (amended): a sentinel encountered at or past the FAQ state still
increments the section counter, and once the counter is past FAQ every
successfully rendering non-sentinel paragraph is ignored: it is
processed under no state and contributes nothing. -/
theorem sentinel_in_faq_advances (env : Env) (s : LoopState) (p : Paragraph) :
    (pyStrip (paraText p) = "#####" → 2 ≤ s.currentSection →
       stepPara env s p = Except.ok { s with currentSection := s.currentSection + 1 })
    ∧ (3 ≤ s.currentSection → pyStrip (paraText p) ≠ "#####" →
       ∀ html d, para_to_html env p = Except.ok (html, d) →
       stepPara env s p = Except.ok s) := by
  constructor
  · intro hsent h2
    rw [stepPara_sentinel env s p hsent]
    unfold sentinelStep
    rw [if_neg (fun hc => absurd hc.2 (by omega))]
  · intro h3 hsent html d hr
    exact stepPara_late env s p html d hr h3 hsent

/-- Witness for C2 (amended): a sentinel in state FAQ moves the
counter to 3, and a rendering paragraph at counter 3 is a no-op. -/
theorem sentinel_in_faq_advances_witness :
    stepPara emptyEnv
      { currentSection := 2, head := [], text := [], faq := [],
        listBuffer := [], listType := none } sentinelPara
      = Except.ok { currentSection := 3, head := [], text := [], faq := [],
                    listBuffer := [], listType := none }
    ∧ stepPara emptyEnv
      { currentSection := 3, head := [], text := [], faq := [],
        listBuffer := [], listType := none } faqAPara
      = Except.ok { currentSection := 3, head := [], text := [], faq := [],
                    listBuffer := [], listType := none } := by
  constructor
  · exact (sentinel_in_faq_advances emptyEnv _ sentinelPara).1 (by decide) (by decide)
  · exact (sentinel_in_faq_advances emptyEnv _ faqAPara).2 (by decide) (by decide)
      "<p><span style=\"font-weight:normal;\">Ans</span></p>" none rfl

/-- C6: head output comes only from non-list paragraphs rendered in
state HEAD.  Any step that changes the head appends exactly one
fragment, happens in state HEAD, and that fragment is a non-list
paragraph element; a non-list-rendered fragment is always a `<p>`
element; a list-classified paragraph encountered in state HEAD leaves
the head untouched and goes into the shared list accumulator, whose
flushes feed only the text output. -/
theorem head_from_plain_head_state_only (env : Env) :
    (∀ s p s', stepPara env s p = Except.ok s' → s'.head ≠ s.head →
       ∃ html, s'.head = s.head ++ [html] ∧ s.currentSection = 0 ∧ html ≠ ""
         ∧ para_to_html env p = Except.ok (html, none))
    ∧ (∀ p html, para_to_html env p = Except.ok (html, none) → html ≠ "" →
       ∃ inner, html = "<p>" ++ inner ++ "</p>")
    ∧ (∀ s p html t, para_to_html env p = Except.ok (html, some t) → html ≠ "" →
       pyStrip (paraText p) ≠ "#####" → s.currentSection = 0 →
       stepPara env s p = Except.ok (accList s html t)
         ∧ (accList s html t).head = s.head) := by
  refine ⟨?_, ?_, ?_⟩
  · intro s p s' hok hneq
    rcases stepPara_cases env s p s' hok with h | ⟨_, h⟩ | ⟨html, t, _, _, _, _, h⟩
      | ⟨html, hsent, hr, hne, hle, h⟩ | ⟨html, d, _, _, _, _, h⟩
    · exact absurd (h ▸ rfl) hneq
    · exact absurd (h ▸ sentinelStep_head s) hneq
    · exact absurd (h ▸ accList_head s html t) hneq
    · by_cases h0 : s.currentSection = 0
      · exact ⟨html, by rw [h, appendPlain_head, if_pos h0], h0, hne, hr⟩
      · exact absurd (by rw [h, appendPlain_head, if_neg h0]) hneq
    · exact absurd (h ▸ rfl) hneq
  · intro p html hr hne
    unfold para_to_html at hr
    cases hm : runsToHtml env p.runs with
    | error e => rw [hm] at hr; simp at hr
    | ok parts =>
      rw [hm] at hr
      by_cases hs : pyStrip (String.join parts) = ""
      · simp [hs] at hr
        exact absurd hr.symm hne
      · simp only [hs, if_neg] at hr
        rcases hdl : detect_list_type p with ⟨fst, snd⟩
        rw [hdl] at hr
        cases fst <;> cases snd <;> simp at hr
        · exact ⟨String.join parts, hr.symm⟩
        · exact ⟨String.join parts, hr.symm⟩
        · exact ⟨String.join parts, hr.symm⟩
  · intro s p html t hr hne hsent h0
    refine ⟨stepPara_list env s p html t hr hne (by omega) hsent, accList_head s html t⟩

/-- Witness for C6: a bulleted paragraph stepped in the initial HEAD
state goes to the accumulator and leaves the head output unchanged. -/
theorem head_from_plain_head_state_only_witness :
    stepPara emptyEnv initState bulletPara
      = Except.ok (accList initState
          "<li ><span style=\"font-weight:normal;\">• x</span></li>" ListType.ul)
    ∧ (accList initState
          "<li ><span style=\"font-weight:normal;\">• x</span></li>" ListType.ul).head
      = initState.head :=
  (head_from_plain_head_state_only emptyEnv).2.2 initState bulletPara
    "<li ><span style=\"font-weight:normal;\">• x</span></li>" ListType.ul
    rfl (by decide) (by decide) rfl

/-- A paragraph standing for content after the third sentinel. -/
def dPara : Paragraph := plainPara "d" false

/-- Counterexample to C3 as stated: with paragraph groups
`A = [bullet item]`, `B = C = []`, `D = [plain paragraph]` and three
sentinels, the text output is not rendered only from B — it contains
the list item buffered during A, flushed at the second sentinel. -/
theorem sections_text_counterexample :
    docx_to_html_sections emptyEnv
      [bulletPara, sentinelPara, sentinelPara, sentinelPara, dPara]
      = Except.ok { head := "",
                    text := "<ul><li ><span style=\"font-weight:normal;\">• x</span></li></ul>",
                    faq := [] } := rfl

/-- C3 (amended): for a document of four sentinel-free, successfully
rendering paragraph groups `[A, B, C, D]` separated by three sentinel
paragraphs, the head output is determined by A alone (the loop state
after A), the text output is determined by A and B together (list items
buffered during A may flush into it), the FAQ pairs are sourced from C
alone, and D is processed under no state and contributes nothing. -/
theorem sections_decomposition (env : Env)
    (A B C D : List Paragraph) (s1 s2 s3 : Paragraph)
    (hs1 : pyStrip (paraText s1) = "#####")
    (hs2 : pyStrip (paraText s2) = "#####")
    (hs3 : pyStrip (paraText s3) = "#####")
    (hA : ∀ p ∈ A, pyStrip (paraText p) ≠ "#####" ∧ rendersOk env p)
    (hB : ∀ p ∈ B, pyStrip (paraText p) ≠ "#####" ∧ rendersOk env p)
    (hC : ∀ p ∈ C, pyStrip (paraText p) ≠ "#####" ∧ rendersOk env p)
    (hD : ∀ p ∈ D, pyStrip (paraText p) ≠ "#####" ∧ rendersOk env p) :
    ∃ stA stAB,
      runParas env initState A = Except.ok stA
      ∧ runParas env initState (A ++ (s1 :: (B ++ [s2]))) = Except.ok stAB
      ∧ docx_to_html_sections env (A ++ (s1 :: (B ++ (s2 :: (C ++ (s3 :: D))))))
        = Except.ok { head := pyStrip (String.join stA.head),
                      text := pyStrip (String.join stAB.text),
                      faq := faqPairs (collectFaq env C) } := by
  obtain ⟨stA, hrunA, hsecA, hfaqA, -⟩ := runParas_nonsent_inv env A initState hA
  have hsecA0 : stA.currentSection = 0 := hsecA
  have hfaqA0 : stA.faq = [] := hfaqA (by decide)
  have hstep1 : stepPara env stA s1 = Except.ok (sentinelStep stA) :=
    stepPara_sentinel env stA s1 hs1
  have hsec1 : (sentinelStep stA).currentSection = 1 := by
    rw [sentinelStep_currentSection, hsecA0]
  have hfaq1 : (sentinelStep stA).faq = [] := by rw [sentinelStep_faq, hfaqA0]
  obtain ⟨stB, hrunB, hsecB, hfaqB, hheadB⟩ := runParas_nonsent_inv env B (sentinelStep stA) hB
  have hsecB1 : stB.currentSection = 1 := by rw [hsecB, hsec1]
  have hheadB1 : stB.head = stA.head := by
    rw [hheadB (by rw [hsec1]), sentinelStep_head]
  have hfaqB1 : stB.faq = [] := by
    rw [hfaqB (by rw [hsec1]; decide), hfaq1]
  have hstep2 : stepPara env stB s2 = Except.ok (sentinelStep stB) :=
    stepPara_sentinel env stB s2 hs2
  have hsec2 : (sentinelStep stB).currentSection = 2 := by
    rw [sentinelStep_currentSection, hsecB1]
  have hhead2 : (sentinelStep stB).head = stA.head := by
    rw [sentinelStep_head, hheadB1]
  have hfaq2 : (sentinelStep stB).faq = [] := by rw [sentinelStep_faq, hfaqB1]
  have hrunAB : runParas env initState (A ++ (s1 :: (B ++ [s2])))
      = Except.ok (sentinelStep stB) := by
    rw [runParas_append env A (s1 :: (B ++ [s2])) initState, hrunA]
    show runParas env stA (s1 :: (B ++ [s2])) = _
    simp only [runParas, hstep1]
    rw [runParas_append env B [s2] (sentinelStep stA), hrunB]
    show runParas env stB [s2] = _
    simp only [runParas, hstep2]
  have hrunC : runParas env (sentinelStep stB) C
      = Except.ok { sentinelStep stB with faq := (sentinelStep stB).faq ++ collectFaq env C } :=
    runParas_sec2 env C (sentinelStep stB) hsec2 hC
  have hstep3 : stepPara env
      { sentinelStep stB with faq := (sentinelStep stB).faq ++ collectFaq env C } s3
      = Except.ok (sentinelStep
          { sentinelStep stB with faq := (sentinelStep stB).faq ++ collectFaq env C }) :=
    stepPara_sentinel env _ s3 hs3
  have hst3eq : sentinelStep
      { sentinelStep stB with faq := (sentinelStep stB).faq ++ collectFaq env C }
      = { sentinelStep stB with
          faq := (sentinelStep stB).faq ++ collectFaq env C, currentSection := 3 } := by
    rw [sentinelStep_ne1 _
      (by show (sentinelStep stB).currentSection ≠ 1; rw [hsec2]; decide)]
    simp [hsec2]
  have hrunD : runParas env
      { sentinelStep stB with
        faq := (sentinelStep stB).faq ++ collectFaq env C, currentSection := 3 } D
      = Except.ok { sentinelStep stB with
          faq := (sentinelStep stB).faq ++ collectFaq env C, currentSection := 3 } :=
    runParas_ge3 env D _ (Nat.le_refl 3) hD
  have hrunFull : runParas env initState (A ++ (s1 :: (B ++ (s2 :: (C ++ (s3 :: D))))))
      = Except.ok { sentinelStep stB with
          faq := (sentinelStep stB).faq ++ collectFaq env C, currentSection := 3 } := by
    rw [runParas_append env A (s1 :: (B ++ (s2 :: (C ++ (s3 :: D))))) initState, hrunA]
    show runParas env stA (s1 :: (B ++ (s2 :: (C ++ (s3 :: D))))) = _
    simp only [runParas, hstep1]
    rw [runParas_append env B (s2 :: (C ++ (s3 :: D))) (sentinelStep stA), hrunB]
    show runParas env stB (s2 :: (C ++ (s3 :: D))) = _
    simp only [runParas, hstep2]
    rw [runParas_append env C (s3 :: D) (sentinelStep stB), hrunC]
    show runParas env
      { sentinelStep stB with faq := (sentinelStep stB).faq ++ collectFaq env C }
      (s3 :: D) = _
    simp only [runParas, hstep3]
    rw [hst3eq]
    exact hrunD
  refine ⟨stA, sentinelStep stB, hrunA, hrunAB, ?_⟩
  rw [docx_runParas env _ _ hrunFull,
      if_neg (fun hc => absurd hc.2 (by show (3 : Nat) ≠ 1; decide))]
  apply congrArg Except.ok
  show ({ head := pyStrip (String.join (sentinelStep stB).head),
          text := pyStrip (String.join (sentinelStep stB).text),
          faq := faqPairs ((sentinelStep stB).faq ++ collectFaq env C) } : Result) = _
  rw [hhead2, hfaq2, List.nil_append]

/-- Witness for C3 (amended): the decomposition applied to the concrete
document `[bullet] ##### [] ##### [question] ##### [d]`. -/
theorem sections_decomposition_witness :
    ∃ stA stAB,
      runParas emptyEnv initState [bulletPara] = Except.ok stA
      ∧ runParas emptyEnv initState
          ([bulletPara] ++ (sentinelPara :: ([] ++ [sentinelPara]))) = Except.ok stAB
      ∧ docx_to_html_sections emptyEnv
          ([bulletPara] ++ (sentinelPara :: ([] ++ (sentinelPara ::
            ([faqQPara] ++ (sentinelPara :: [dPara]))))))
        = Except.ok { head := pyStrip (String.join stA.head),
                      text := pyStrip (String.join stAB.text),
                      faq := faqPairs (collectFaq emptyEnv [faqQPara]) } :=
  sections_decomposition emptyEnv [bulletPara] [] [faqQPara] [dPara]
    sentinelPara sentinelPara sentinelPara rfl rfl rfl
    (by intro p hp; simp at hp; subst hp; exact ⟨by decide, ⟨_, rfl⟩⟩)
    (by intro p hp; simp at hp)
    (by intro p hp; simp at hp; subst hp; exact ⟨by decide, ⟨_, rfl⟩⟩)
    (by intro p hp; simp at hp; subst hp; exact ⟨by decide, ⟨_, rfl⟩⟩)

/-- All conversions of a batch of documents, in order. -/
def convertAll (env : Env) (docs : List (List Paragraph)) : List (Except String Result) :=
  docs.map (docx_to_html_sections env)

/-- C9: the conversion is a pure function of the materialised document
model — equal documents give byte-identical Results field by field, and
in a sequence of conversions each call's output is the conversion of
its own document, independent of any earlier calls. -/
theorem conversion_deterministic (env : Env) (d1 d2 : List Paragraph)
    (pre : List (List Paragraph)) (h : d1 = d2) :
    docx_to_html_sections env d1 = docx_to_html_sections env d2
    ∧ convertAll env (pre ++ [d1]) = convertAll env pre ++ [docx_to_html_sections env d2]
    ∧ (∀ r1 r2, docx_to_html_sections env d1 = Except.ok r1 →
        docx_to_html_sections env d2 = Except.ok r2 →
        r1.head = r2.head ∧ r1.text = r2.text ∧ r1.faq = r2.faq) := by
  subst h
  refine ⟨rfl, by simp [convertAll], ?_⟩
  intro r1 r2 h1 h2
  rw [h1] at h2
  injection h2 with h3
  exact ⟨by rw [h3], by rw [h3], by rw [h3]⟩

/-- Witness for C9: two conversions of the same concrete document. -/
theorem conversion_deterministic_witness :
    docx_to_html_sections emptyEnv [bulletPara] = docx_to_html_sections emptyEnv [bulletPara] :=
  (conversion_deterministic emptyEnv [bulletPara] [bulletPara] [[sentinelPara]] rfl).1

end DocxParser
